import Mathlib

/-!
# The Redis session-store adapter (`redis/redis.go`)

A shallow embedding of package `redis`: the `Store` interface values, the unexported
`store` wrapper, the three constructors, `GetRedisStore`, the two forwarding setters and
the `Options` method.

Go pointers are addresses into an explicit heap (`World`); `none` is the nil pointer.
A call either returns or stops with a run-time panic (`Run`).  Go `int` values are
unbounded integers here: the package does no arithmetic on them.
-/

set_option autoImplicit false

namespace gsessions

/-- Modelled from the spec: the cookie options record of the underlying session library
(type `Options` of the gorilla sessions package, not part of `redis/redis.go`).  The spec
lists the fields `Domain`, `Path`, `MaxAge`, `Secure`, `HttpOnly`, `SameSite`. -/
structure Options where
  Path : String
  Domain : String
  MaxAge : Int
  Secure : Bool
  HttpOnly : Bool
  SameSite : Int
  deriving DecidableEq, Repr

end gsessions

namespace sessions

/-- Modelled from the spec: the cookie options of the generic session abstraction (type
`sessions.Options` of the parent package, whose declaration is outside `redis/redis.go`).
The spec lists the fields `Domain`, `Path`, `MaxAge`, `Secure`, `HttpOnly`, `SameSite`. -/
structure Options where
  Path : String
  Domain : String
  MaxAge : Int
  Secure : Bool
  HttpOnly : Bool
  SameSite : Int
  deriving DecidableEq, Repr

/-- Modelled from the spec: the conversion `ToGorillaOptions` of the parent package (its body
is outside `redis/redis.go`).  The spec describes one cookie-options setter over the six
fields, so the conversion carries each field over unchanged. -/
def Options.ToGorillaOptions (options : Options) : gsessions.Options :=
  { Path := options.Path
    Domain := options.Domain
    MaxAge := options.MaxAge
    Secure := options.Secure
    HttpOnly := options.HttpOnly
    SameSite := options.SameSite }

end sessions

namespace redistore

/-- Modelled from the spec: the session store of the third-party package `redistore` (its
declaration is outside `redis/redis.go`).  `Options` is the field assigned by
`store.Options`; `keyPrefix` and `maxLength` are the two settings the spec names
(`setKeyPrefix`, `setMaxLength`); `collaborators` stands for everything else the store
holds (connection pool, codecs, key pairs).  The `Options` pointer is represented by the
record it points to, `none` being nil. -/
structure RediStore where
  Options : Option gsessions.Options
  maxLength : Int
  keyPrefix : String
  collaborators : Nat
  deriving DecidableEq, Repr

/-- Modelled from the spec: one entry of the remote key-value server (`StoredEntry`): the
lookup key, the serialized payload bytes and the time-to-live. -/
structure StoredEntry where
  key : String
  payload : List Nat
  ttl : Int
  deriving DecidableEq, Repr

/-- Modelled from the spec: the remote key of a session, "Remote key format:
`{prefix}{sessionID}`" (computed inside the third-party store, outside `redis/redis.go`). -/
def RediStore.sessionKey (s : RediStore) (id : String) : String :=
  s.keyPrefix ++ id

/-- Modelled from the spec: the body of the third-party method `(*RediStore).SetKeyPrefix`
(outside `redis/redis.go`).  The spec describes `setKeyPrefix(prefix)` as a configuration
setter and the prefix as configurable: the setting is replaced, nothing else is touched. -/
def RediStore.SetKeyPrefix (s : RediStore) (p : String) : RediStore :=
  { s with keyPrefix := p }

/-- Modelled from the spec: the body of the third-party method `(*RediStore).SetMaxLength`
(outside `redis/redis.go`).  The spec describes `setMaxLength(maxBytes)` as a configuration
setter of the maximum payload length, so only that setting can change.  It does not say
which arguments the store accepts (the source refers to the library documentation for
that), so the value kept is `newMaxLength current requested`, a parameter. -/
def RediStore.SetMaxLength (newMaxLength : Int → Int → Int) (s : RediStore) (l : Int) :
    RediStore :=
  { s with maxLength := newMaxLength s.maxLength l }

end redistore

namespace redis

/-- The Go `error` interface: `none` is nil, `some msg` an error value with its message. -/
abbrev error := Option String

/-- The outcome of a call: it returns a value, or the goroutine panics (here always a nil
pointer dereference). -/
inductive Run (α : Type) where
  | ret (a : α)
  | panic
  deriving DecidableEq, Repr

/-- The Go struct `store`: it embeds a `*redistore.RediStore`. -/
structure store where
  RediStore : Option Nat
  deriving DecidableEq, Repr

/-- The state the package runs in: the allocated `store` structs and `RediStore` objects
(an address is an index) and the contents of the remote server. -/
structure World where
  stores : List store
  rediStores : List redistore.RediStore
  remote : List redistore.StoredEntry
  deriving DecidableEq, Repr

/-- A value of the interface `Store`: the nil interface, a `*store` pointer (`ptr none` is
the nil pointer of that type), or a value of any other implementing type. -/
inductive Store where
  | nil
  | ptr (p : Option Nat)
  | foreign (dynamicType : Nat)
  deriving DecidableEq, Repr

/-- Whether the dynamic type of the interface value is `*store`. -/
def Store.isStorePtr : Store → Bool
  | .ptr _ => true
  | _ => false

/-- Typing of the heap: a non-nil `*store` pointer held by the interface value points to an
allocated struct (Go has no dangling pointers). -/
def Store.valid (w : World) : Store → Prop
  | .ptr (some a) => a < w.stores.length
  | _ => True

instance (w : World) (s : Store) : Decidable (s.valid w) := by
  unfold Store.valid; split <;> infer_instance

/-- The expression `&store{s}`: a fresh struct is allocated and its address returned. -/
def World.newStore (w : World) (s : Option Nat) : Option Nat × World :=
  (some w.stores.length, { w with stores := w.stores ++ [⟨s⟩] })

/-- The message of the error made by `GetRedisStore`. -/
def notStoreMsg : String := "unable to get the redis store: Store isn't *store"

/-- Function `GetRedisStore`: the type assertion `s.(*store)` succeeds exactly on `ptr`; then
`realStore.RediStore` dereferences the pointer. -/
def GetRedisStore (w : World) (s : Store) : Run (error × Option Nat) :=
  match s with
  | .ptr realStore =>
    match realStore with
    | none => .panic
    | some a =>
      match w.stores[a]? with
      | none => .panic
      | some st => .ret (none, st.RediStore)
  | _ => .ret (some notStoreMsg, none)

/-- A method of the third-party store called through the pointer `p`, with body `f`: the
body assigns through the receiver, so a nil receiver panics; otherwise the object is
updated in place. -/
def World.call (w : World) (p : Option Nat) (f : redistore.RediStore → redistore.RediStore) :
    Run World :=
  match p with
  | none => .panic
  | some r =>
    match w.rediStores[r]? with
    | none => .panic
    | some rs => .ret { w with rediStores := w.rediStores.set r (f rs) }

/-- The type of `redistore.NewRediStore`: the library call is not part of this package, it
talks to the server and allocates, so its outcome is a parameter of the constructors. -/
abbrev NewRediStoreFn :=
  World → Int → String → String → String → List (List Nat) → (Option Nat × error) × World

/-- The type of `redistore.NewRediStoreWithDB` (one more string, the database). -/
abbrev NewRediStoreWithDBFn :=
  World → Int → String → String → String → String → List (List Nat) →
    (Option Nat × error) × World

/-- The type of `redistore.NewRediStoreWithPool` (the pool is a pointer). -/
abbrev NewRediStoreWithPoolFn :=
  World → Option Nat → List (List Nat) → (Option Nat × error) × World

/-- Function `NewStore`: the library constructor is called; its error is passed on with a nil
`Store`, otherwise the result is wrapped in a fresh `store`. -/
def NewStore (NewRediStore : NewRediStoreFn) (w : World) (size : Int)
    (network address password : String) (keyPairs : List (List Nat)) :
    (Store × error) × World :=
  match NewRediStore w size network address password keyPairs with
  | ((s, err), w1) =>
    match err with
    | some e => ((.nil, some e), w1)
    | none => ((.ptr (w1.newStore s).1, none), (w1.newStore s).2)

/-- Function `NewStoreWithDB`: as `NewStore`, over `redistore.NewRediStoreWithDB`. -/
def NewStoreWithDB (NewRediStoreWithDB : NewRediStoreWithDBFn) (w : World) (size : Int)
    (network address password DB : String) (keyPairs : List (List Nat)) :
    (Store × error) × World :=
  match NewRediStoreWithDB w size network address password DB keyPairs with
  | ((s, err), w1) =>
    match err with
    | some e => ((.nil, some e), w1)
    | none => ((.ptr (w1.newStore s).1, none), (w1.newStore s).2)

/-- Function `NewStoreWithPool`: as `NewStore`, over `redistore.NewRediStoreWithPool`. -/
def NewStoreWithPool (NewRediStoreWithPool : NewRediStoreWithPoolFn) (w : World)
    (pool : Option Nat) (keyPairs : List (List Nat)) : (Store × error) × World :=
  match NewRediStoreWithPool w pool keyPairs with
  | ((s, err), w1) =>
    match err with
    | some e => ((.nil, some e), w1)
    | none => ((.ptr (w1.newStore s).1, none), (w1.newStore s).2)

/-- Function `SetKeyPrefix`: the error of `GetRedisStore` is returned as it is; otherwise the setter
of the underlying store is called and nil returned. -/
def SetKeyPrefix (w : World) (s : Store) (pfx : String) : Run (error × World) :=
  match GetRedisStore w s with
  | .panic => .panic
  | .ret (err, rediStore) =>
    match err with
    | some e => .ret (some e, w)
    | none =>
      match w.call rediStore (fun rs => rs.SetKeyPrefix pfx) with
      | .panic => .panic
      | .ret w1 => .ret (none, w1)

/-- Function `SetMaxLength`: as `SetKeyPrefix`, over the setter of the maximum length. -/
def SetMaxLength (newMaxLength : Int → Int → Int) (w : World) (s : Store) (length : Int) :
    Run (error × World) :=
  match GetRedisStore w s with
  | .panic => .panic
  | .ret (err, rediStore) =>
    match err with
    | some e => .ret (some e, w)
    | none =>
      match w.call rediStore (fun rs => rs.SetMaxLength newMaxLength length) with
      | .panic => .panic
      | .ret w1 => .ret (none, w1)

/-- The method `(c *store) Options`: `c.RediStore.Options = options.ToGorillaOptions()`.
Both `c` and the embedded pointer are dereferenced. -/
def store.Options (w : World) (c : Option Nat) (options : sessions.Options) : Run World :=
  match c with
  | none => .panic
  | some a =>
    match w.stores[a]? with
    | none => .panic
    | some st =>
      match st.RediStore with
      | none => .panic
      | some r =>
        match w.rediStores[r]? with
        | none => .panic
        | some rs =>
          .ret { w with
            rediStores := w.rediStores.set r { rs with Options := some options.ToGorillaOptions } }

/-- The interface value `s` is a wrapper around the live `RediStore` at address `r`: a
non-nil `*store` whose embedded pointer is `r`.  This is what each constructor returns
when the library call succeeds with a pointer to the store it made. -/
def Store.wraps (w : World) : Store → Nat → Prop
  | .ptr (some a), r => w.stores[a]? = some ⟨some r⟩ ∧ r < w.rediStores.length
  | _, _ => False

instance (w : World) (s : Store) (r : Nat) : Decidable (s.wraps w r) := by
  unfold Store.wraps; split <;> infer_instance

/-! ## Sample states and predicates used in the statements -/

/-- A sample state: no wrapper yet, one `RediStore` object made by the library. -/
def sampleWorld : World :=
  ⟨[], [⟨none, 4096, "sess:", 7⟩], []⟩

/-- A sample outcome of the library constructor: success, the store at address 0. -/
def sampleNewRediStore : NewRediStoreFn :=
  fun w _ _ _ _ _ => ((some 0, none), w)

/-- A sample failing outcome of the library constructor. -/
def failingNewRediStore : NewRediStoreFn :=
  fun w _ _ _ _ _ => ((none, some "dial tcp: connection refused"), w)

/-- A sample outcome of `redistore.NewRediStoreWithDB`: success, the store at address 0. -/
def sampleNewRediStoreWithDB : NewRediStoreWithDBFn :=
  fun w _ _ _ _ _ _ => ((some 0, none), w)

/-- A sample outcome of `redistore.NewRediStoreWithPool`: success, the store at address 0. -/
def sampleNewRediStoreWithPool : NewRediStoreWithPoolFn :=
  fun w _ _ => ((some 0, none), w)

/-- What a constructor does with the outcome `lib` of its library call, `out` being its own
outcome: the error is the library's; on an error the `Store` is nil and nothing is
allocated; otherwise the `Store` is a non-nil `*store` pointing to a struct that embeds
the pointer the library returned, and the objects of the library are as it left them. -/
def passesOn (lib : (Option Nat × error) × World) (out : (Store × error) × World) : Prop :=
  out.1.2 = lib.1.2 ∧
    (∀ e, lib.1.2 = some e → out = ((Store.nil, some e), lib.2)) ∧
    (lib.1.2 = none →
      ∃ a, out.1 = (Store.ptr (some a), none) ∧ out.1.1 ≠ Store.nil ∧
        out.2.stores[a]? = some ⟨lib.1.1⟩ ∧ out.2.stores = lib.2.stores ++ [⟨lib.1.1⟩] ∧
        out.2.rediStores = lib.2.rediStores ∧ out.2.remote = lib.2.remote)

/-- The state `w1` differs from `w` at most in the `RediStore` object at address `r`: the
remote entries, the wrapper structs and every other `RediStore` object are the same. -/
def World.agreesOutside (w w1 : World) (r : Nat) : Prop :=
  w1.remote = w.remote ∧ w1.stores = w.stores ∧
    w1.rediStores.length = w.rediStores.length ∧
    ∀ q, q ≠ r → w1.rediStores[q]? = w.rediStores[q]?

/-- A sample state with a wrapper at address 0 around the store at address 0, and one entry
saved on the remote server under the prefix in force at the time. -/
def sampleWrapped : World :=
  ⟨[⟨some 0⟩], [⟨none, 4096, "sess:", 7⟩], [⟨"sess:abc123", [1, 2, 3], 3600⟩]⟩

/-! ## Helper lemmas -/

theorem GetRedisStore_ptr_some (w : World) (a : Nat) (st : store)
    (h : w.stores[a]? = some st) :
    GetRedisStore w (.ptr (some a)) = .ret (none, st.RediStore) := by
  simp [GetRedisStore, h]

theorem GetRedisStore_not_store (w : World) (s : Store) (h : s.isStorePtr = false) :
    GetRedisStore w s = .ret (some notStoreMsg, none) := by
  cases s <;> simp_all [GetRedisStore, Store.isStorePtr]

theorem newStore_lookup (w : World) (r : Option Nat) :
    (w.newStore r).2.stores[w.stores.length]? = some ⟨r⟩ := by
  simp [World.newStore]

theorem GetRedisStore_newStore (w : World) (r : Option Nat) :
    GetRedisStore (w.newStore r).2 (.ptr (w.newStore r).1) = .ret (none, r) := by
  have h := GetRedisStore_ptr_some (w.newStore r).2 w.stores.length ⟨r⟩ (newStore_lookup w r)
  simpa [World.newStore] using h

theorem passesOn_wrap (lib : (Option Nat × error) × World) :
    passesOn lib
      (match lib with
        | ((s, err), w1) =>
          match err with
          | some e => ((Store.nil, some e), w1)
          | none => ((Store.ptr (w1.newStore s).1, none), (w1.newStore s).2)) := by
  obtain ⟨⟨s, err⟩, w1⟩ := lib
  cases err with
  | some e =>
    refine ⟨rfl, ?_, ?_⟩
    · intro e2 h
      cases h
      rfl
    · intro h
      cases h
  | none =>
    refine ⟨rfl, ?_, ?_⟩
    · intro e2 h
      cases h
    · intro _
      exact ⟨w1.stores.length, rfl, by simp [World.newStore], newStore_lookup w1 s, rfl, rfl, rfl⟩

theorem GetRedisStore_wrap (lib : (Option Nat × error) × World) (h : lib.1.2 = none) :
    GetRedisStore
        (match lib with
          | ((s, err), w1) =>
            match err with
            | some e => ((Store.nil, some e), w1)
            | none => ((Store.ptr (w1.newStore s).1, none), (w1.newStore s).2)).2
        (match lib with
          | ((s, err), w1) =>
            match err with
            | some e => ((Store.nil, some e), w1)
            | none => ((Store.ptr (w1.newStore s).1, none), (w1.newStore s).2)).1.1 =
      Run.ret (none, lib.1.1) := by
  obtain ⟨⟨s, err⟩, w1⟩ := lib
  cases h
  exact GetRedisStore_newStore w1 s

theorem wraps_iff (w : World) (s : Store) (r : Nat) :
    s.wraps w r ↔
      ∃ a, s = Store.ptr (some a) ∧ w.stores[a]? = some ⟨some r⟩ ∧ r < w.rediStores.length := by
  constructor
  · intro h
    cases s with
    | nil => exact h.elim
    | foreign t => exact h.elim
    | ptr p =>
      cases p with
      | none => exact h.elim
      | some a => exact ⟨a, rfl, h.1, h.2⟩
  · rintro ⟨a, rfl, h1, h2⟩
    exact ⟨h1, h2⟩

theorem call_live (w : World) (r : Nat) (f : redistore.RediStore → redistore.RediStore)
    (hr : r < w.rediStores.length) :
    w.call (some r) f = Run.ret { w with rediStores := w.rediStores.set r (f w.rediStores[r]) } := by
  simp [World.call, List.getElem?_eq_getElem hr]

theorem set_agreesOutside (w : World) (r : Nat) (x : redistore.RediStore) :
    w.agreesOutside { w with rediStores := w.rediStores.set r x } r := by
  refine ⟨rfl, rfl, by simp, ?_⟩
  intro q hq
  simp [List.getElem?_set, Ne.symm hq]

theorem set_lookup (w : World) (r : Nat) (x : redistore.RediStore)
    (hr : r < w.rediStores.length) :
    ({ w with rediStores := w.rediStores.set r x } : World).rediStores[r]? = some x := by
  simp [List.getElem?_set, hr]

theorem SetKeyPrefix_wraps (w : World) (s : Store) (r : Nat) (pfx : String)
    (h : s.wraps w r) :
    ∃ hr : r < w.rediStores.length,
      SetKeyPrefix w s pfx =
        Run.ret (none,
          { w with rediStores := w.rediStores.set r (w.rediStores[r].SetKeyPrefix pfx) }) := by
  obtain ⟨a, rfl, ha, hr⟩ := (wraps_iff w s r).1 h
  refine ⟨hr, ?_⟩
  simp [SetKeyPrefix, GetRedisStore_ptr_some w a _ ha, call_live w r _ hr]

theorem SetMaxLength_wraps (newMaxLength : Int → Int → Int) (w : World) (s : Store) (r : Nat)
    (length : Int) (h : s.wraps w r) :
    ∃ hr : r < w.rediStores.length,
      SetMaxLength newMaxLength w s length =
        Run.ret (none,
          { w with
            rediStores :=
              w.rediStores.set r (w.rediStores[r].SetMaxLength newMaxLength length) }) := by
  obtain ⟨a, rfl, ha, hr⟩ := (wraps_iff w s r).1 h
  refine ⟨hr, ?_⟩
  simp [SetMaxLength, GetRedisStore_ptr_some w a _ ha, call_live w r _ hr]

theorem Options_wraps (w : World) (c r : Nat) (o : sessions.Options)
    (h : (Store.ptr (some c)).wraps w r) :
    ∃ hr : r < w.rediStores.length,
      store.Options w (some c) o =
        Run.ret
          { w with
            rediStores :=
              w.rediStores.set r { w.rediStores[r] with Options := some o.ToGorillaOptions } } := by
  obtain ⟨ha, hr⟩ := h
  refine ⟨hr, ?_⟩
  simp [store.Options, ha, List.getElem?_eq_getElem hr]

theorem wraps_of_agreesOutside (w w1 : World) (s : Store) (r q : Nat)
    (hw : w.agreesOutside w1 q) (h : s.wraps w r) : s.wraps w1 r := by
  obtain ⟨a, rfl, ha, hr⟩ := (wraps_iff w s r).1 h
  obtain ⟨_, hs, hl, _⟩ := hw
  exact ⟨by rw [hs]; exact ha, by rw [hl]; exact hr⟩

theorem wrap_wraps (lib : (Option Nat × error) × World) (r : Nat)
    (h : lib.1 = (some r, none)) (hr : r < lib.2.rediStores.length) :
    Store.wraps
      (match lib with
        | ((s, err), w1) =>
          match err with
          | some e => ((Store.nil, some e), w1)
          | none => ((Store.ptr (w1.newStore s).1, none), (w1.newStore s).2)).2
      (match lib with
        | ((s, err), w1) =>
          match err with
          | some e => ((Store.nil, some e), w1)
          | none => ((Store.ptr (w1.newStore s).1, none), (w1.newStore s).2)).1.1 r := by
  obtain ⟨⟨s, err⟩, w1⟩ := lib
  cases h
  exact ⟨newStore_lookup w1 (some r), hr⟩

/-- On success of the library call with a pointer to a live store, `NewStore` returns a
`Store` that wraps that store. -/
theorem NewStore_wraps (f : NewRediStoreFn) (w : World) (size : Int)
    (network address password : String) (keyPairs : List (List Nat)) (r : Nat)
    (h : (f w size network address password keyPairs).1 = (some r, none))
    (hr : r < (f w size network address password keyPairs).2.rediStores.length) :
    (NewStore f w size network address password keyPairs).1.1.wraps
      (NewStore f w size network address password keyPairs).2 r :=
  wrap_wraps _ r h hr

/-- The same for `NewStoreWithDB`. -/
theorem NewStoreWithDB_wraps (g : NewRediStoreWithDBFn) (w : World) (size : Int)
    (network address password DB : String) (keyPairs : List (List Nat)) (r : Nat)
    (h : (g w size network address password DB keyPairs).1 = (some r, none))
    (hr : r < (g w size network address password DB keyPairs).2.rediStores.length) :
    (NewStoreWithDB g w size network address password DB keyPairs).1.1.wraps
      (NewStoreWithDB g w size network address password DB keyPairs).2 r :=
  wrap_wraps _ r h hr

/-- The same for `NewStoreWithPool`. -/
theorem NewStoreWithPool_wraps (k : NewRediStoreWithPoolFn) (w : World) (pool : Option Nat)
    (keyPairs : List (List Nat)) (r : Nat)
    (h : (k w pool keyPairs).1 = (some r, none))
    (hr : r < (k w pool keyPairs).2.rediStores.length) :
    (NewStoreWithPool k w pool keyPairs).1.1.wraps (NewStoreWithPool k w pool keyPairs).2 r :=
  wrap_wraps _ r h hr

/-- On a wrapper around a live store `SetMaxLength` returns nil for every integer, and the
maximum length kept afterwards is the one the setter of the library chooses from the
current and the requested value. -/
theorem SetMaxLength_forwards (newMaxLength : Int → Int → Int) (w : World) (s : Store)
    (r : Nat) (length : Int) (h : s.wraps w r) :
    ∃ rs w1 rs1, w.rediStores[r]? = some rs ∧
      SetMaxLength newMaxLength w s length = Run.ret (none, w1) ∧
      w1.rediStores[r]? = some rs1 ∧ rs1.maxLength = newMaxLength rs.maxLength length := by
  obtain ⟨hr, heq⟩ := SetMaxLength_wraps newMaxLength w s r length h
  exact ⟨_, _, _, List.getElem?_eq_getElem hr, heq, set_lookup w r _ hr, rfl⟩

/-! ## The claims -/

/-- C1 (as stated, refuted): a `Store` whose dynamic type is `*store` but whose pointer is
nil is a well-typed value on which `GetRedisStore` panics: it returns no error at all, so
"for every value of dynamic type `*store` the error is nil" fails. -/
theorem GetRedisStore_nil_ptr_panics :
    (Store.ptr none).isStorePtr = true ∧ (Store.ptr none).valid sampleWorld ∧
      GetRedisStore sampleWorld (Store.ptr none) = Run.panic ∧
      ¬ (∀ (w : World) (s : Store), s.valid w → s.isStorePtr = true →
          ∃ r, GetRedisStore w s = Run.ret (none, r)) := by
  refine ⟨rfl, trivial, rfl, ?_⟩
  intro h
  obtain ⟨r, hr⟩ := h sampleWorld (Store.ptr none) trivial rfl
  simp [GetRedisStore] at hr

/-- C1 (amended): on a well-typed `Store`, `GetRedisStore` returns a non-nil error exactly
when the dynamic type is not `*store`; then the error carries the fixed message and the
returned pointer is nil.  On a non-nil `*store` it returns a nil error and the embedded
pointer; on the nil `*store` pointer it panics. -/
theorem GetRedisStore_error_iff (w : World) (s : Store) (hv : s.valid w) :
    ((∃ e r, GetRedisStore w s = Run.ret (some e, r)) ↔ s.isStorePtr = false) ∧
      (s.isStorePtr = false →
        GetRedisStore w s =
          Run.ret (some "unable to get the redis store: Store isn't *store", none)) ∧
      (∀ a, s = Store.ptr (some a) →
        ∃ st, w.stores[a]? = some st ∧ GetRedisStore w s = Run.ret (none, st.RediStore)) ∧
      (s = Store.ptr none → GetRedisStore w s = Run.panic) := by
  refine ⟨?_, ?_, ?_, ?_⟩
  · constructor
    · rintro ⟨e, r, h⟩
      cases s with
      | nil => rfl
      | foreign t => rfl
      | ptr p =>
        cases p with
        | none => simp [GetRedisStore] at h
        | some a =>
          have ha : a < w.stores.length := hv
          simp [GetRedisStore, List.getElem?_eq_getElem ha] at h
    · intro h
      exact ⟨notStoreMsg, none, GetRedisStore_not_store w s h⟩
  · intro h
    exact GetRedisStore_not_store w s h
  · rintro a rfl
    have ha : a < w.stores.length := hv
    exact ⟨w.stores[a], List.getElem?_eq_getElem ha,
      GetRedisStore_ptr_some w a _ (List.getElem?_eq_getElem ha)⟩
  · rintro rfl
    rfl

/-- C1, witness: a wrapper made by `NewStore` in the sample state. -/
theorem GetRedisStore_error_iff_witness :
    (Store.ptr (some 0)).valid (sampleWorld.newStore (some 0)).2 ∧
      GetRedisStore (sampleWorld.newStore (some 0)).2 (Store.ptr (some 0)) =
        Run.ret (none, some 0) := by
  refine ⟨by decide, ?_⟩
  obtain ⟨st, hst, h⟩ :=
    (GetRedisStore_error_iff (sampleWorld.newStore (some 0)).2 (Store.ptr (some 0))
      (by decide)).2.2.1 0 rfl
  have : st = ⟨some 0⟩ := by
    have h2 : (sampleWorld.newStore (some 0)).2.stores[0]? = some ⟨some 0⟩ := by decide
    rw [h2] at hst
    exact (Option.some.inj hst).symm
  rw [h, this]

/-- C2: `GetRedisStore` applied to the wrapper `&store{r}` returns a nil error together
with the very pointer `r`; so on the `Store` returned by `NewStore`, `NewStoreWithDB` or
`NewStoreWithPool` after a successful library call it returns the pointer the library
call returned. -/
theorem GetRedisStore_undoes_wrapping (w : World) (r : Option Nat)
    (f : NewRediStoreFn) (g : NewRediStoreWithDBFn) (k : NewRediStoreWithPoolFn)
    (size : Int) (network address password DB : String) (pool : Option Nat)
    (keyPairs : List (List Nat)) :
    GetRedisStore (w.newStore r).2 (Store.ptr (w.newStore r).1) = Run.ret (none, r) ∧
      ((f w size network address password keyPairs).1.2 = none →
        GetRedisStore (NewStore f w size network address password keyPairs).2
            (NewStore f w size network address password keyPairs).1.1 =
          Run.ret (none, (f w size network address password keyPairs).1.1)) ∧
      ((g w size network address password DB keyPairs).1.2 = none →
        GetRedisStore (NewStoreWithDB g w size network address password DB keyPairs).2
            (NewStoreWithDB g w size network address password DB keyPairs).1.1 =
          Run.ret (none, (g w size network address password DB keyPairs).1.1)) ∧
      ((k w pool keyPairs).1.2 = none →
        GetRedisStore (NewStoreWithPool k w pool keyPairs).2
            (NewStoreWithPool k w pool keyPairs).1.1 =
          Run.ret (none, (k w pool keyPairs).1.1)) :=
  ⟨GetRedisStore_newStore w r,
    fun h => GetRedisStore_wrap (f w size network address password keyPairs) h,
    fun h => GetRedisStore_wrap (g w size network address password DB keyPairs) h,
    fun h => GetRedisStore_wrap (k w pool keyPairs) h⟩

/-- C2, witness: `NewStore` over a successful library call, then `GetRedisStore`. -/
theorem GetRedisStore_undoes_wrapping_witness :
    (sampleNewRediStore sampleWorld 5 "tcp" "localhost:6379" "" []).1.2 = none ∧
      GetRedisStore (NewStore sampleNewRediStore sampleWorld 5 "tcp" "localhost:6379" "" []).2
          (NewStore sampleNewRediStore sampleWorld 5 "tcp" "localhost:6379" "" []).1.1 =
        Run.ret (none, some 0) :=
  ⟨rfl, (GetRedisStore_undoes_wrapping sampleWorld none sampleNewRediStore
    sampleNewRediStoreWithDB sampleNewRediStoreWithPool 5 "tcp" "localhost:6379" "" "" none
    []).2.1 rfl⟩

/-- C8: each of `NewStore`, `NewStoreWithDB` and `NewStoreWithPool` returns the error of
the library constructor it calls; when that error is non-nil the `Store` is nil and
nothing is allocated, and when it is nil the `Store` is a non-nil `*store` whose struct
embeds exactly the pointer the library constructor returned. -/
theorem constructors_pass_on (w : World)
    (f : NewRediStoreFn) (g : NewRediStoreWithDBFn) (k : NewRediStoreWithPoolFn)
    (size : Int) (network address password DB : String) (pool : Option Nat)
    (keyPairs : List (List Nat)) :
    ((NewStore f w size network address password keyPairs).1.2 =
          (f w size network address password keyPairs).1.2 ∧
        (∀ e, (f w size network address password keyPairs).1.2 = some e →
          NewStore f w size network address password keyPairs =
            ((Store.nil, some e), (f w size network address password keyPairs).2)) ∧
        ((f w size network address password keyPairs).1.2 = none →
          ∃ a, (NewStore f w size network address password keyPairs).1 =
              (Store.ptr (some a), none) ∧
            (NewStore f w size network address password keyPairs).1.1 ≠ Store.nil ∧
            (NewStore f w size network address password keyPairs).2.stores[a]? =
              some ⟨(f w size network address password keyPairs).1.1⟩)) ∧
      ((NewStoreWithDB g w size network address password DB keyPairs).1.2 =
          (g w size network address password DB keyPairs).1.2 ∧
        (∀ e, (g w size network address password DB keyPairs).1.2 = some e →
          NewStoreWithDB g w size network address password DB keyPairs =
            ((Store.nil, some e), (g w size network address password DB keyPairs).2)) ∧
        ((g w size network address password DB keyPairs).1.2 = none →
          ∃ a, (NewStoreWithDB g w size network address password DB keyPairs).1 =
              (Store.ptr (some a), none) ∧
            (NewStoreWithDB g w size network address password DB keyPairs).1.1 ≠ Store.nil ∧
            (NewStoreWithDB g w size network address password DB keyPairs).2.stores[a]? =
              some ⟨(g w size network address password DB keyPairs).1.1⟩)) ∧
      ((NewStoreWithPool k w pool keyPairs).1.2 = (k w pool keyPairs).1.2 ∧
        (∀ e, (k w pool keyPairs).1.2 = some e →
          NewStoreWithPool k w pool keyPairs = ((Store.nil, some e), (k w pool keyPairs).2)) ∧
        ((k w pool keyPairs).1.2 = none →
          ∃ a, (NewStoreWithPool k w pool keyPairs).1 = (Store.ptr (some a), none) ∧
            (NewStoreWithPool k w pool keyPairs).1.1 ≠ Store.nil ∧
            (NewStoreWithPool k w pool keyPairs).2.stores[a]? =
              some ⟨(k w pool keyPairs).1.1⟩)) := by
  have hf := passesOn_wrap (f w size network address password keyPairs)
  have hg := passesOn_wrap (g w size network address password DB keyPairs)
  have hk := passesOn_wrap (k w pool keyPairs)
  refine ⟨⟨hf.1, hf.2.1, fun h => ?_⟩, ⟨hg.1, hg.2.1, fun h => ?_⟩, ⟨hk.1, hk.2.1, fun h => ?_⟩⟩
  · obtain ⟨a, h1, h2, h3, _⟩ := hf.2.2 h
    exact ⟨a, h1, h2, h3⟩
  · obtain ⟨a, h1, h2, h3, _⟩ := hg.2.2 h
    exact ⟨a, h1, h2, h3⟩
  · obtain ⟨a, h1, h2, h3, _⟩ := hk.2.2 h
    exact ⟨a, h1, h2, h3⟩

/-- C8, witness: a failing library call; `NewStore` returns the nil `Store` and the same
error. -/
theorem constructors_pass_on_witness :
    NewStore failingNewRediStore sampleWorld 5 "tcp" "localhost:6379" "" [] =
      ((Store.nil, some "dial tcp: connection refused"), sampleWorld) :=
  (constructors_pass_on sampleWorld failingNewRediStore sampleNewRediStoreWithDB
    sampleNewRediStoreWithPool 5 "tcp" "localhost:6379" "" "" none []).1.2.1
    "dial tcp: connection refused" rfl

/-- C9: on a `Store` whose dynamic type is not `*store`, `SetKeyPrefix` and `SetMaxLength`
return the non-nil error of `GetRedisStore` and leave the whole state as it was. -/
theorem setters_fail_without_update (newMaxLength : Int → Int → Int) (w : World) (s : Store)
    (pfx : String) (length : Int) (h : s.isStorePtr = false) :
    ∃ e, GetRedisStore w s = Run.ret (some e, none) ∧
      SetKeyPrefix w s pfx = Run.ret (some e, w) ∧
      SetMaxLength newMaxLength w s length = Run.ret (some e, w) := by
  have hg := GetRedisStore_not_store w s h
  exact ⟨notStoreMsg, hg, by simp [SetKeyPrefix, hg], by simp [SetMaxLength, hg]⟩

/-- C9, witness: a `Store` of a foreign dynamic type in the sample state. -/
theorem setters_fail_without_update_witness :
    (Store.foreign 1).isStorePtr = false ∧
      ∃ e, GetRedisStore sampleWorld (Store.foreign 1) = Run.ret (some e, none) ∧
        SetKeyPrefix sampleWorld (Store.foreign 1) "app:" = Run.ret (some e, sampleWorld) ∧
        SetMaxLength (fun _ l => l) sampleWorld (Store.foreign 1) (-1) =
          Run.ret (some e, sampleWorld) :=
  ⟨rfl, setters_fail_without_update (fun _ l => l) sampleWorld (Store.foreign 1) "app:" (-1) rfl⟩

/-- C3: on a `Store` that wraps a live underlying store (what `NewStore`, `NewStoreWithDB`
and `NewStoreWithPool` return on success), `SetKeyPrefix s pfx` returns nil and afterwards
the key prefix of the underlying store is `pfx`, so the remote key of the session with
identifier `id` is `pfx ++ id`; the `Store` still wraps the same underlying store. -/
theorem SetKeyPrefix_sets_key_prefix (w : World) (s : Store) (r : Nat) (pfx : String)
    (h : s.wraps w r) :
    ∃ w1 rs1, SetKeyPrefix w s pfx = Run.ret (none, w1) ∧ w1.rediStores[r]? = some rs1 ∧
      rs1.keyPrefix = pfx ∧ (∀ id, rs1.sessionKey id = pfx ++ id) ∧ s.wraps w1 r := by
  obtain ⟨hr, heq⟩ := SetKeyPrefix_wraps w s r pfx h
  exact ⟨_, _, heq, set_lookup w r _ hr, rfl, fun _ => rfl,
    wraps_of_agreesOutside w _ s r r (set_agreesOutside w r _) h⟩

/-- C3, witness: the scenario of the spec: a store made by `NewStore`, prefix `app:`,
session `abc123`, remote key `app:abc123` and not `abc123`. -/
theorem SetKeyPrefix_sets_key_prefix_witness :
    (NewStore sampleNewRediStore sampleWorld 5 "tcp" "localhost:6379" "" []).1.1.wraps
        (NewStore sampleNewRediStore sampleWorld 5 "tcp" "localhost:6379" "" []).2 0 ∧
      ∃ w1 rs1,
        SetKeyPrefix (NewStore sampleNewRediStore sampleWorld 5 "tcp" "localhost:6379" "" []).2
            (NewStore sampleNewRediStore sampleWorld 5 "tcp" "localhost:6379" "" []).1.1 "app:" =
          Run.ret (none, w1) ∧
        w1.rediStores[0]? = some rs1 ∧ rs1.sessionKey "abc123" = "app:abc123" ∧
        rs1.sessionKey "abc123" ≠ "abc123" := by
  refine ⟨by decide, ?_⟩
  obtain ⟨w1, rs1, h1, h2, _, h4, _⟩ :=
    SetKeyPrefix_sets_key_prefix
      (NewStore sampleNewRediStore sampleWorld 5 "tcp" "localhost:6379" "" []).2
      (NewStore sampleNewRediStore sampleWorld 5 "tcp" "localhost:6379" "" []).1.1 0 "app:"
      (by decide)
  refine ⟨w1, rs1, h1, h2, ?_, ?_⟩
  · rw [h4]
    decide
  · rw [h4]
    decide

/-- C5: for a wrapper `c` around a live underlying store and cookie options `o`, the call
`c.Options(o)` returns, and afterwards the `Options` field of the underlying store is
`o.ToGorillaOptions()`, whose `Domain`, `Path`, `MaxAge`, `Secure`, `HttpOnly` and
`SameSite` are those of `o`. -/
theorem Options_sets_cookie_options (w : World) (c r : Nat) (o : sessions.Options)
    (h : (Store.ptr (some c)).wraps w r) :
    ∃ w1 rs1, store.Options w (some c) o = Run.ret w1 ∧ w1.rediStores[r]? = some rs1 ∧
      rs1.Options = some o.ToGorillaOptions ∧
      ∃ g, rs1.Options = some g ∧ g.Domain = o.Domain ∧ g.Path = o.Path ∧
        g.MaxAge = o.MaxAge ∧ g.Secure = o.Secure ∧ g.HttpOnly = o.HttpOnly ∧
        g.SameSite = o.SameSite := by
  obtain ⟨hr, heq⟩ := Options_wraps w c r o h
  exact ⟨_, _, heq, set_lookup w r _ hr, rfl, _, rfl, rfl, rfl, rfl, rfl, rfl, rfl⟩

/-- C5, witness: cookie options set on a wrapper made in the sample state. -/
theorem Options_sets_cookie_options_witness :
    (Store.ptr (some 0)).wraps (sampleWorld.newStore (some 0)).2 0 ∧
      ∃ w1 rs1,
        store.Options (sampleWorld.newStore (some 0)).2 (some 0)
            ⟨"/", "example.org", 3600, true, true, 2⟩ = Run.ret w1 ∧
        w1.rediStores[0]? = some rs1 ∧
        rs1.Options = some ⟨"/", "example.org", 3600, true, true, 2⟩ := by
  refine ⟨by decide, ?_⟩
  obtain ⟨w1, rs1, h1, h2, h3, _⟩ :=
    Options_sets_cookie_options (sampleWorld.newStore (some 0)).2 0 0
      ⟨"/", "example.org", 3600, true, true, 2⟩ (by decide)
  exact ⟨w1, rs1, h1, h2, h3⟩

/-- C7: on a wrapper around a live underlying store each configuration call returns and
changes only its own setting: `SetKeyPrefix` keeps the maximum length and the cookie
options, `SetMaxLength` keeps the key prefix and the cookie options, `Options` keeps the
key prefix and the maximum length; each keeps the rest of the underlying store, every
other object and every entry of the remote store. -/
theorem setters_change_only_their_setting (newMaxLength : Int → Int → Int) (w : World)
    (c r : Nat) (pfx : String) (length : Int) (o : sessions.Options)
    (h : (Store.ptr (some c)).wraps w r) :
    ∃ rs, w.rediStores[r]? = some rs ∧
      (∃ w1 rs1, SetKeyPrefix w (Store.ptr (some c)) pfx = Run.ret (none, w1) ∧
        w1.rediStores[r]? = some rs1 ∧ rs1.maxLength = rs.maxLength ∧
        rs1.Options = rs.Options ∧ rs1.collaborators = rs.collaborators ∧
        w1.remote = w.remote ∧ w.agreesOutside w1 r) ∧
      (∃ w1 rs1, SetMaxLength newMaxLength w (Store.ptr (some c)) length = Run.ret (none, w1) ∧
        w1.rediStores[r]? = some rs1 ∧ rs1.keyPrefix = rs.keyPrefix ∧
        rs1.Options = rs.Options ∧ rs1.collaborators = rs.collaborators ∧
        w1.remote = w.remote ∧ w.agreesOutside w1 r) ∧
      (∃ w1 rs1, store.Options w (some c) o = Run.ret w1 ∧
        w1.rediStores[r]? = some rs1 ∧ rs1.keyPrefix = rs.keyPrefix ∧
        rs1.maxLength = rs.maxLength ∧ rs1.collaborators = rs.collaborators ∧
        w1.remote = w.remote ∧ w.agreesOutside w1 r) := by
  obtain ⟨hr, h1⟩ := SetKeyPrefix_wraps w (Store.ptr (some c)) r pfx h
  obtain ⟨_, h2⟩ := SetMaxLength_wraps newMaxLength w (Store.ptr (some c)) r length h
  obtain ⟨_, h3⟩ := Options_wraps w c r o h
  refine ⟨w.rediStores[r], List.getElem?_eq_getElem hr, ?_, ?_, ?_⟩
  · exact ⟨_, _, h1, set_lookup w r _ hr, rfl, rfl, rfl, rfl, set_agreesOutside w r _⟩
  · exact ⟨_, _, h2, set_lookup w r _ hr, rfl, rfl, rfl, rfl, set_agreesOutside w r _⟩
  · exact ⟨_, _, h3, set_lookup w r _ hr, rfl, rfl, rfl, rfl, set_agreesOutside w r _⟩

/-- C7, witness: in a state with a saved entry, each of the three calls leaves the remote
entries as they were. -/
theorem setters_change_only_their_setting_witness :
    (Store.ptr (some 0)).wraps sampleWrapped 0 ∧
      (∃ w1, SetKeyPrefix sampleWrapped (Store.ptr (some 0)) "app:" = Run.ret (none, w1) ∧
        w1.remote = [⟨"sess:abc123", [1, 2, 3], 3600⟩]) ∧
      (∃ w1, SetMaxLength (fun _ l => l) sampleWrapped (Store.ptr (some 0)) 8192 =
          Run.ret (none, w1) ∧
        w1.remote = [⟨"sess:abc123", [1, 2, 3], 3600⟩]) ∧
      (∃ w1, store.Options sampleWrapped (some 0) ⟨"/", "example.org", 3600, true, true, 2⟩ =
          Run.ret w1 ∧
        w1.remote = [⟨"sess:abc123", [1, 2, 3], 3600⟩]) := by
  refine ⟨by decide, ?_⟩
  obtain ⟨_, _, ⟨w1, _, h1, _, _, _, _, h1r, _⟩, ⟨w2, _, h2, _, _, _, _, h2r, _⟩,
      ⟨w3, _, h3, _, _, _, _, h3r, _⟩⟩ :=
    setters_change_only_their_setting (fun _ l => l) sampleWrapped 0 0 "app:" 8192
      ⟨"/", "example.org", 3600, true, true, 2⟩ (by decide)
  exact ⟨⟨w1, h1, h1r⟩, ⟨w2, h2, h2r⟩, ⟨w3, h3, h3r⟩⟩

end redis
